import Mathlib

/-!
Verification development for the acu-plunk-event-logger pipeline
(src/main.py).  The file gives a shallow embedding of the parts of the
program the claims are about:

* the event normalisation performed while building the MERGE query
  parameters (lines 67-90 of main.py),
* the MERGE-based upsert into the events table (lines 52-143), modelled
  with standard SQL MERGE semantics: source rows are matched against the
  target table as of statement start, a target row matched by more than
  one source row is a runtime error, and every unmatched source row is
  inserted,
* the bounce-metrics computation (lines 145-224), with timestamps as
  integers (seconds) and rates as exact rationals,
* the threshold/alert decision logic (lines 284-302),
* the per-recipient alert dispatch (lines 226-267 and 304-310), with the
  HTTP POST modelled as a function returning either a response or a
  raised transport exception.
-/

namespace PlunkLogger

/-- JSON-like value as the Python code receives it from the provider API:
a dict, list, string, number, boolean or null.  Numbers are modelled as
integers. -/
inductive Value where
  | null
  | bool (b : Bool)
  | num (n : Int)
  | str (s : String)
  | arr (xs : List Value)
  | obj (fields : List (String × Value))

/-- Python dict lookup on a JSON object field list (first occurrence of the
key wins). -/
def lookupKey : List (String × Value) → String → Option Value
  | [], _ => none
  | (k, v) :: rest, key => if k = key then some v else lookupKey rest key

mutual

/-- Serialisation of a value as Python json.dumps with default separators,
modelling the raw_json parameter built on line 88 of main.py. -/
def dumps : Value → String
  | .null => "null"
  | .bool b => if b then "true" else "false"
  | .num n => toString n
  | .str s => "\"" ++ s ++ "\""
  | .arr xs => "[" ++ dumpsElems xs ++ "]"
  | .obj fs => "\x7b" ++ dumpsFields fs ++ "\x7d"

/-- Serialisation of the element list of a JSON array. -/
def dumpsElems : List Value → String
  | [] => ""
  | [x] => dumps x
  | x :: y :: rest => dumps x ++ ", " ++ dumpsElems (y :: rest)

/-- Serialisation of the field list of a JSON object. -/
def dumpsFields : List (String × Value) → String
  | [] => ""
  | [(k, v)] => "\"" ++ k ++ "\": " ++ dumps v
  | (k, v) :: p :: rest => "\"" ++ k ++ "\": " ++ dumps v ++ ", " ++ dumpsFields (p :: rest)

end

/-- Python e.get(key, default) on a value: returns the stored value (which
may itself be null) when the key is present, the default when it is absent,
and raises AttributeError when the receiver is not a dict.  Calls with no
explicit default in main.py correspond to default = Value.null (Python
None). -/
def pyGet (v : Value) (key : String) (default : Value) : Except String Value :=
  match v with
  | .obj fs =>
    match lookupKey fs key with
    | some x => .ok x
    | none => .ok default
  | _ => .error "AttributeError"

/-- Total version of dict get for a known object field list. -/
def pyGetD (fs : List (String × Value)) (key : String) (default : Value) : Value :=
  match lookupKey fs key with
  | some x => x
  | none => default

/-- Query parameter values built for one event (lines 72-89 of main.py);
each field holds the Python value passed to the corresponding scalar query
parameter, with Value.null standing for Python None. -/
structure ParamRow where
  id : Value
  name : Value
  project_id : Value
  contact_id : Value
  email_id : Value
  created_at : Value
  timestamp : Value
  data_from : Value
  data_subject : Value
  data_template_id : Value
  data_message_id : Value
  data_bounced_at : Value
  data_bounce_type : Value
  contact_email : Value
  raw_json : Value

/-- Normalisation of one raw event record into query parameters, exactly as
lines 67-90 of main.py: data and contact are fetched with an empty-dict
default, every other field with Python None as implicit default, and the
nested sub-fields are fetched from whatever e.get returned (raising
AttributeError when that is not a dict, e.g. when the key held null). -/
def normalize_event_params (e : Value) : Except String ParamRow := do
  let data_obj ← pyGet e "data" (.obj [])
  let contact_obj ← pyGet e "contact" (.obj [])
  let idv ← pyGet e "id" .null
  let namev ← pyGet e "name" .null
  let projectId ← pyGet e "projectId" .null
  let contactId ← pyGet e "contactId" .null
  let emailId ← pyGet e "emailId" .null
  let createdAt ← pyGet e "createdAt" .null
  let dFrom ← pyGet data_obj "from" .null
  let dSubject ← pyGet data_obj "subject" .null
  let dTemplateId ← pyGet data_obj "templateId" .null
  let dMessageId ← pyGet data_obj "messageId" .null
  let dBouncedAt ← pyGet data_obj "bouncedAt" .null
  let dBounceType ← pyGet data_obj "bounceType" .null
  let cEmail ← pyGet contact_obj "email" .null
  pure
    { id := idv, name := namev, project_id := projectId, contact_id := contactId,
      email_id := emailId, created_at := createdAt, timestamp := createdAt,
      data_from := dFrom, data_subject := dSubject, data_template_id := dTemplateId,
      data_message_id := dMessageId, data_bounced_at := dBouncedAt,
      data_bounce_type := dBounceType, contact_email := cEmail,
      raw_json := .str (dumps e) }

/-- Row value normalisation actually produces when the record and its two
nested objects are dicts: every canonical field is the dict lookup with a
null default, and raw_json is the serialised original record. -/
def extract_row (fs g2 g3 : List (String × Value)) : ParamRow :=
  { id := pyGetD fs "id" .null, name := pyGetD fs "name" .null,
    project_id := pyGetD fs "projectId" .null, contact_id := pyGetD fs "contactId" .null,
    email_id := pyGetD fs "emailId" .null, created_at := pyGetD fs "createdAt" .null,
    timestamp := pyGetD fs "createdAt" .null,
    data_from := pyGetD g2 "from" .null, data_subject := pyGetD g2 "subject" .null,
    data_template_id := pyGetD g2 "templateId" .null,
    data_message_id := pyGetD g2 "messageId" .null,
    data_bounced_at := pyGetD g2 "bouncedAt" .null,
    data_bounce_type := pyGetD g2 "bounceType" .null,
    contact_email := pyGetD g3 "email" .null,
    raw_json := .str (dumps (.obj fs)) }

/-- Stored row of the events table (schema of the MERGE on lines 95-114 of
main.py).  STRING columns are Option String, TIMESTAMP columns are modelled
as Option Int (seconds); a none is a SQL NULL. -/
structure Row where
  id : Option String := none
  name : Option String := none
  project_id : Option String := none
  contact_id : Option String := none
  email_id : Option String := none
  created_at : Option Int := none
  timestamp : Option Int := none
  data_from : Option String := none
  data_subject : Option String := none
  data_template_id : Option String := none
  data_message_id : Option String := none
  data_bounced_at : Option Int := none
  data_bounce_type : Option String := none
  contact_email : Option String := none
  raw_json : Option String := none
deriving DecidableEq

/-- SQL equality of two nullable ids, as in the join condition
ON T.id = S.id: true only when both sides are non-null and equal. -/
def sqlEq : Option String → Option String → Bool
  | some a, some b => a == b
  | _, _ => false

/-- Update applied by the WHEN MATCHED branch of the MERGE (lines 99-106):
exactly name, contact_id, email_id, data_bounced_at, data_bounce_type and
raw_json are overwritten from the source row. -/
def updateRow (t s : Row) : Row :=
  { t with
    name := s.name,
    contact_id := s.contact_id,
    email_id := s.email_id,
    data_bounced_at := s.data_bounced_at,
    data_bounce_type := s.data_bounce_type,
    raw_json := s.raw_json }

/-- First source row of the batch matching a target id under the join
condition of the MERGE. -/
def findMatch (batch : List Row) (tid : Option String) : Option Row :=
  batch.find? fun s => sqlEq tid s.id

/-- Fate of one target row under the MERGE: updated from its matching source
row when one exists, unchanged otherwise. -/
def rowAfter (batch : List Row) (t : Row) : Row :=
  match findMatch batch t.id with
  | some s => updateRow t s
  | none => t

/-- Resulting table of the MERGE when it succeeds: every target row matched
by a source row is updated (WHEN MATCHED), and every source row matching no
target row is inserted (WHEN NOT MATCHED).  Matching is against the target
table as of statement start. -/
def mergeResult (store batch : List Row) : List Row :=
  store.map (rowAfter batch)
    ++ batch.filter fun s => !(store.any fun t => sqlEq t.id s.id)

/-- One MERGE statement (lines 95-114 and 142): a runtime error when some
target row is matched by more than one source row, otherwise the merged
table; on error nothing is applied. -/
def mergeEvents (store batch : List Row) : Except String (List Row) :=
  if store.any (fun t => decide (1 < (batch.filter fun s => sqlEq t.id s.id).length)) then
    .error "MERGE matched one target row with multiple source rows"
  else
    .ok (mergeResult store batch)

/-- upsert_events_to_bq (lines 52-143 of main.py): an empty batch returns
without touching the store, otherwise the batch is merged by one atomic
MERGE statement. -/
def upsert_events_to_bq (store : List Row) (events : List Row) : Except String (List Row) :=
  if events.isEmpty then .ok store else mergeEvents store events

/-- Sequence of upsert runs starting from a given store; a failing merge
aborts the sequence. -/
def apply_upserts (store : List Row) (batches : List (List Row)) : Except String (List Row) :=
  batches.foldlM upsert_events_to_bq store

/-- Store invariant claimed by the spec: no two stored rows carry the same
id (SQL equality, so rows with a NULL id never collide). -/
@[reducible]
def StoreInv (rows : List Row) : Prop :=
  rows.Pairwise fun a b => sqlEq a.id b.id = false

/-- Well-formed batch: no two events of the batch carry the same non-null
id. -/
@[reducible]
def BatchWf (batch : List Row) : Prop :=
  batch.Pairwise fun a b => sqlEq a.id b.id = false

/-- Seven days in seconds, the INTERVAL 7 DAY of the windowed queries. -/
def window7d : Int := 7 * 86400

/-- Sixteen minutes in seconds, the INTERVAL 16 MINUTE of the recent-burst
query. -/
def window16m : Int := 16 * 60

/-- SQL window condition timestamp >= cutoff; false (NULL) when the stored
timestamp is NULL. -/
def tsAtLeast (r : Row) (cutoff : Int) : Bool :=
  match r.timestamp with
  | some t => decide (cutoff ≤ t)
  | none => false

/-- COUNT(DISTINCT email_id) over the rows satisfying the WHERE clause;
SQL leaves NULL email_id out of the distinct count. -/
def countDistinctEmail (store : List Row) (p : Row → Bool) : Nat :=
  ((store.filter p).filterMap Row.email_id).dedup.length

/-- Comparison realising ORDER BY timestamp DESC; BigQuery places NULLs
last in descending order. -/
def tsDescLe (a b : Row) : Bool :=
  match a.timestamp, b.timestamp with
  | some x, some y => decide (y ≤ x)
  | some _, none => true
  | none, some _ => false
  | none, none => true

/-- Metrics dictionary returned by calculate_bounce_metrics (lines 219-224
of main.py): counts and rate per rate axis, the recent-bounce report list,
and the bare 16-minute bounce count. -/
structure Metrics where
  sent_7d : Nat := 0
  bounced_7d : Nat := 0
  rate_7d : ℚ := 0
  sent_all : Nat := 0
  bounced_all : Nat := 0
  rate_all : ℚ := 0
  recent_bounces : List (Option String × Option String × Option Int) := []
  recent_bounces_16m_count : Nat := 0
deriving DecidableEq

/-- calculate_bounce_metrics (lines 145-224 of main.py), with the current
time passed explicitly: distinct email_id counts of sent and bounce events
in the 7-day window and over all time, rates defined as 0 when no mail was
sent, the 20 most recent bounce rows, and the distinct bounce count of the
last 16 minutes. -/
def calculate_bounce_metrics (now : Int) (store : List Row) : Metrics :=
  let sent7 := countDistinctEmail store fun r =>
    r.name == some "email.sent" && tsAtLeast r (now - window7d)
  let bounced7 := countDistinctEmail store fun r =>
    r.name == some "email.bounce" && tsAtLeast r (now - window7d)
  let rate7 : ℚ := if 0 < sent7 then (bounced7 : ℚ) / (sent7 : ℚ) else 0
  let sentAll := countDistinctEmail store fun r => r.name == some "email.sent"
  let bouncedAll := countDistinctEmail store fun r => r.name == some "email.bounce"
  let rateAll : ℚ := if 0 < sentAll then (bouncedAll : ℚ) / (sentAll : ℚ) else 0
  let bounceRows := (store.filter fun r => r.name == some "email.bounce").mergeSort tsDescLe
  let bounces := (bounceRows.map fun r => (r.contact_email, r.data_subject, r.data_bounced_at)).take 20
  let b16 := countDistinctEmail store fun r =>
    r.name == some "email.bounce" && tsAtLeast r (now - window16m)
  { sent_7d := sent7, bounced_7d := bounced7, rate_7d := rate7,
    sent_all := sentAll, bounced_all := bouncedAll, rate_all := rateAll,
    recent_bounces := bounces, recent_bounces_16m_count := b16 }

/-- Sent count of the recent-burst window as the data-model section of the
spec describes it (a (sent_count, bounced_count) pair for the 16-minute
window); the code computes no such count, so this definition follows the
words of the spec and exists only to be compared with
calculate_bounce_metrics. -/
def spec_recent_burst_sent_count (now : Int) (store : List Row) : Nat :=
  countDistinctEmail store fun r =>
    r.name == some "email.sent" && tsAtLeast r (now - window16m)

/-- Severity of an alert line, named after the message label of lines
288-302 of main.py. -/
inductive Severity where
  | critical
  | warning
  | info
deriving DecidableEq

/-- One alert line appended by plunk_event_logger (lines 284-302): the
constructor records the axis and severity of the message and the datum
interpolated into it. -/
inductive Alert where
  | crit7d (rate : ℚ)
  | warn7d (rate : ℚ)
  | critAll (rate : ℚ)
  | warnAll (rate : ℚ)
  | info16m (count : Nat)
deriving DecidableEq

/-- Severity label carried by an alert message. -/
def Alert.severity : Alert → Severity
  | .crit7d _ => .critical
  | .warn7d _ => .warning
  | .critAll _ => .critical
  | .warnAll _ => .warning
  | .info16m _ => .info

/-- Numeric severity rank: critical strongest. -/
def sevRank : Severity → Nat
  | .critical => 0
  | .warning => 1
  | .info => 2

/-- Rate axis an alert belongs to, in the order the code appends them:
0 the 7-day axis, 1 the all-time axis, 2 the recent-burst axis. -/
def Alert.axisRank : Alert → Nat
  | .crit7d _ => 0
  | .warn7d _ => 0
  | .critAll _ => 1
  | .warnAll _ => 1
  | .info16m _ => 2

/-- Threshold constant of line 17 of main.py. -/
def BOUNCE_RATE_7D_WARNING : ℚ := 0.05

/-- Threshold constant of line 18 of main.py. -/
def BOUNCE_RATE_7D_CRITICAL : ℚ := 0.075

/-- Threshold constant of line 19 of main.py. -/
def BOUNCE_RATE_ALL_TIME_WARNING : ℚ := 0.04

/-- Threshold constant of line 20 of main.py. -/
def BOUNCE_RATE_ALL_TIME_CRITICAL : ℚ := 0.06

/-- Threshold checks of plunk_event_logger (lines 284-302 of main.py):
per axis an if/elif pair appends the critical message, else the warning
message, else nothing; any nonzero 16-minute bounce count appends the
informational message last. -/
def compute_alerts (m : Metrics) : List Alert :=
  (if BOUNCE_RATE_7D_CRITICAL < m.rate_7d then [Alert.crit7d m.rate_7d]
   else if BOUNCE_RATE_7D_WARNING < m.rate_7d then [Alert.warn7d m.rate_7d]
   else [])
  ++ (if BOUNCE_RATE_ALL_TIME_CRITICAL < m.rate_all then [Alert.critAll m.rate_all]
      else if BOUNCE_RATE_ALL_TIME_WARNING < m.rate_all then [Alert.warnAll m.rate_all]
      else [])
  ++ (if 0 < m.recent_bounces_16m_count then [Alert.info16m m.recent_bounces_16m_count]
      else [])

/-- Response object of a completed HTTP POST to the mail API; the code
never reads it, but the model carries the status code to state that. -/
structure Response where
  status : Nat
deriving DecidableEq

/-- Python str.strip(): remove leading and trailing whitespace. -/
def pyStrip (s : String) : String :=
  .mk (((s.data.dropWhile Char.isWhitespace).reverse.dropWhile Char.isWhitespace).reverse)

/-- send_alert_email (lines 226-267 of main.py), with requests.post
modelled as a function from the recipient to either a response (the POST
completed) or a raised transport exception message.  Each configured
recipient is stripped, blank entries are skipped, and the POST runs inside
try/except: a completed POST logs success, an exception is caught and logs
failure.  The returned list records, per attempted recipient, whether the
success line or the failure line was printed. -/
def send_alert_email (post : String → Except String Response)
    (recipients : List String) : List (String × Bool) :=
  recipients.filterMap fun r =>
    let r2 := pyStrip r
    if r2 = "" then none
    else
      match post r2 with
      | .ok _ => some (r2, true)
      | .error _ => some (r2, false)

/-- Alert dispatch tail of plunk_event_logger (lines 304-310 of main.py):
emails are sent only when the alert list is nonempty, send_alert_email
never raises, and the handler then returns ("OK", 200). -/
def alert_dispatch (post : String → Except String Response)
    (recipients : List String) (alerts : List Alert) :
    (String × Nat) × List (String × Bool) :=
  if alerts.isEmpty then (("OK", 200), [])
  else (("OK", 200), send_alert_email post recipients)

/-- Example event row with id "a", used to exhibit a batch repeating one
id. -/
def ev_dup : Row :=
  { id := some "a", name := some "email.sent", email_id := some "m1" }

/-- Example event row whose id is NULL (the provider record lacked an id
field). -/
def ev_noid : Row :=
  { name := some "email.bounce", email_id := some "m2" }

/-- Example event row with id "a". -/
def ev_a : Row :=
  { id := some "a", name := some "email.sent", email_id := some "m1" }

/-- Example event row with id "b". -/
def ev_b : Row :=
  { id := some "b", name := some "email.sent", email_id := some "m2" }

/-- Example stored row with id "a" and populated immutable fields. -/
def stored_a : Row :=
  { id := some "a", name := some "email.sent", project_id := some "p1",
    contact_id := some "c1", email_id := some "m1", created_at := some 100,
    timestamp := some 100, data_from := some "termin@a-c-u.eu",
    data_subject := some "Termin", contact_email := some "kunde@example.com",
    raw_json := some "r1" }

/-- Example incoming event carrying id "a" again, now as a bounce. -/
def incoming_a : Row :=
  { id := some "a", name := some "email.bounce", contact_id := some "c1",
    email_id := some "m1", created_at := some 100, timestamp := some 100,
    data_bounced_at := some 150, data_bounce_type := some "hard",
    raw_json := some "r2" }

/-- Example store: one sent mail one hour before the reference time. -/
def store_sent_1h : List Row :=
  [{ id := some "1", name := some "email.sent", email_id := some "m1",
     timestamp := some (-3600) }]

/-- Example store: one sent mail one minute before the reference time. -/
def store_sent_1m : List Row :=
  [{ id := some "1", name := some "email.sent", email_id := some "m1",
     timestamp := some (-60) }]

/-- Metrics with a 7-day rate of eight percent. -/
def m_7d_008 : Metrics := { rate_7d := 0.08 }

/-- Metrics with a 7-day rate of six percent. -/
def m_7d_006 : Metrics := { rate_7d := 0.06 }

/-- Metrics with a 7-day rate of three percent. -/
def m_7d_003 : Metrics := { rate_7d := 0.03 }

/-- Metrics with an all-time rate of seven percent. -/
def m_all_007 : Metrics := { rate_all := 0.07 }

/-- Metrics with an all-time rate of five percent. -/
def m_all_005 : Metrics := { rate_all := 0.05 }

/-- Metrics with an all-time rate of three percent. -/
def m_all_003 : Metrics := { rate_all := 0.03 }

/-- Metrics with three recent bounces while both rate axes also fire. -/
def m_burst3 : Metrics :=
  { rate_7d := 0.08, rate_all := 0.07, recent_bounces_16m_count := 3 }

/-- Metrics whose 7-day rate only warns while the all-time rate is
critical (one sent batch of 16 mails with one bounce gives both rates
1/16). -/
def m_cross : Metrics :=
  { sent_7d := 16, bounced_7d := 1, rate_7d := 1/16,
    sent_all := 16, bounced_all := 1, rate_all := 1/16 }

/-- Example transport behaviour: the POST for recipient "a" raises a
connection error, every other POST completes with status 200. -/
def post_demo : String → Except String Response :=
  fun r => if r = "a" then .error "ConnectionError" else .ok ⟨200⟩

/-- Example raw record whose data key is present but holds null. -/
def rec_null_data : Value :=
  .obj [("id", .str "e1"), ("name", .str "email.sent"), ("data", .null)]

/-- Field list of an example raw record with no data key and a contact
object. -/
def rec_no_data_fields : List (String × Value) :=
  [("id", .str "e2"), ("name", .str "email.sent"),
   ("contact", .obj [("email", .str "kunde@example.com")])]

/-- The claimed severity ordering of the alert list: every line is at most
as severe as the lines after it (critical first, then warning, then
info). -/
def SeverityOrdered (alerts : List Alert) : Prop :=
  alerts.Pairwise fun a b => sevRank a.severity ≤ sevRank b.severity

theorem sqlEq_none_left (o : Option String) : sqlEq none o = false := by
  cases o <;> rfl

theorem sqlEq_none_right (o : Option String) : sqlEq o none = false := by
  cases o <;> rfl

theorem sqlEq_some_iff {x : String} {o : Option String} :
    sqlEq (some x) o = true ↔ o = some x := by
  cases o with
  | none => simp [sqlEq]
  | some y =>
    simp only [sqlEq, beq_iff_eq, Option.some.injEq]
    exact ⟨fun h => h.symm, fun h => h.symm⟩

theorem sqlEq_true {a b : Option String} (h : sqlEq a b = true) :
    ∃ x, a = some x ∧ b = some x := by
  cases a with
  | none => simp [sqlEq_none_left] at h
  | some x => exact ⟨x, rfl, sqlEq_some_iff.mp h⟩

theorem sqlEq_refl_some {x : String} : sqlEq (some x) (some x) = true := by
  simp [sqlEq]

/-- C4.  Alert tiering is mutually exclusive per rate axis: the 7-day axis
contributes exactly the critical message when the rate exceeds 0.075,
exactly the warning message when it lies in (0.05, 0.075], and nothing at
0.05 or below; the all-time axis behaves the same with thresholds 0.06 and
0.04. -/
theorem C4_alert_tiering (m : Metrics) :
    (BOUNCE_RATE_7D_CRITICAL < m.rate_7d →
      (compute_alerts m).filter (fun a => a.axisRank == 0) = [Alert.crit7d m.rate_7d]) ∧
    (BOUNCE_RATE_7D_WARNING < m.rate_7d → m.rate_7d ≤ BOUNCE_RATE_7D_CRITICAL →
      (compute_alerts m).filter (fun a => a.axisRank == 0) = [Alert.warn7d m.rate_7d]) ∧
    (m.rate_7d ≤ BOUNCE_RATE_7D_WARNING →
      (compute_alerts m).filter (fun a => a.axisRank == 0) = []) ∧
    (BOUNCE_RATE_ALL_TIME_CRITICAL < m.rate_all →
      (compute_alerts m).filter (fun a => a.axisRank == 1) = [Alert.critAll m.rate_all]) ∧
    (BOUNCE_RATE_ALL_TIME_WARNING < m.rate_all → m.rate_all ≤ BOUNCE_RATE_ALL_TIME_CRITICAL →
      (compute_alerts m).filter (fun a => a.axisRank == 1) = [Alert.warnAll m.rate_all]) ∧
    (m.rate_all ≤ BOUNCE_RATE_ALL_TIME_WARNING →
      (compute_alerts m).filter (fun a => a.axisRank == 1) = []) := by
  have hwc7 : BOUNCE_RATE_7D_WARNING < BOUNCE_RATE_7D_CRITICAL := by
    norm_num [BOUNCE_RATE_7D_WARNING, BOUNCE_RATE_7D_CRITICAL]
  have hwca : BOUNCE_RATE_ALL_TIME_WARNING < BOUNCE_RATE_ALL_TIME_CRITICAL := by
    norm_num [BOUNCE_RATE_ALL_TIME_WARNING, BOUNCE_RATE_ALL_TIME_CRITICAL]
  refine ⟨fun a1 => ?_, fun a2 a3 => ?_, fun a4 => ?_, fun a5 => ?_,
    fun a6 a7 => ?_, fun a8 => ?_⟩ <;> unfold compute_alerts
  · rw [if_pos a1]
    split_ifs <;> simp [Alert.axisRank]
  · rw [if_neg (not_lt.mpr a3), if_pos a2]
    split_ifs <;> simp [Alert.axisRank]
  · rw [if_neg (not_lt.mpr (a4.trans hwc7.le)), if_neg (not_lt.mpr a4)]
    split_ifs <;> simp [Alert.axisRank]
  · rw [if_pos a5]
    split_ifs <;> simp [Alert.axisRank]
  · rw [if_neg (not_lt.mpr a7), if_pos a6]
    split_ifs <;> simp [Alert.axisRank]
  · rw [if_neg (not_lt.mpr (a8.trans hwca.le)), if_neg (not_lt.mpr a8)]
    split_ifs <;> simp [Alert.axisRank]

/-- C4 witness: a 7-day rate of 0.08 yields exactly the critical 7-day
message, 0.06 exactly the warning message, 0.03 none; an all-time rate of
0.07 yields exactly the critical all-time message, 0.05 exactly the
warning message, 0.03 none. -/
theorem C4_alert_tiering_witness :
    (compute_alerts m_7d_008).filter (fun a => a.axisRank == 0) = [Alert.crit7d m_7d_008.rate_7d] ∧
    (compute_alerts m_7d_006).filter (fun a => a.axisRank == 0) = [Alert.warn7d m_7d_006.rate_7d] ∧
    (compute_alerts m_7d_003).filter (fun a => a.axisRank == 0) = [] ∧
    (compute_alerts m_all_007).filter (fun a => a.axisRank == 1) = [Alert.critAll m_all_007.rate_all] ∧
    (compute_alerts m_all_005).filter (fun a => a.axisRank == 1) = [Alert.warnAll m_all_005.rate_all] ∧
    (compute_alerts m_all_003).filter (fun a => a.axisRank == 1) = [] :=
  ⟨(C4_alert_tiering m_7d_008).1
      (by norm_num [m_7d_008, BOUNCE_RATE_7D_CRITICAL]),
   (C4_alert_tiering m_7d_006).2.1
      (by norm_num [m_7d_006, BOUNCE_RATE_7D_WARNING])
      (by norm_num [m_7d_006, BOUNCE_RATE_7D_CRITICAL]),
   (C4_alert_tiering m_7d_003).2.2.1
      (by norm_num [m_7d_003, BOUNCE_RATE_7D_WARNING]),
   (C4_alert_tiering m_all_007).2.2.2.1
      (by norm_num [m_all_007, BOUNCE_RATE_ALL_TIME_CRITICAL]),
   (C4_alert_tiering m_all_005).2.2.2.2.1
      (by norm_num [m_all_005, BOUNCE_RATE_ALL_TIME_WARNING])
      (by norm_num [m_all_005, BOUNCE_RATE_ALL_TIME_CRITICAL]),
   (C4_alert_tiering m_all_003).2.2.2.2.2
      (by norm_num [m_all_003, BOUNCE_RATE_ALL_TIME_WARNING])⟩

/-- C6.  The recent-burst informational alert appears in the alert list
exactly when the 16-minute bounce count is nonzero, whatever the state of
the two rate axes. -/
theorem C6_info_iff (m : Metrics) :
    Alert.info16m m.recent_bounces_16m_count ∈ compute_alerts m ↔
      0 < m.recent_bounces_16m_count := by
  unfold compute_alerts
  constructor
  · intro h
    by_contra hc
    rw [if_neg hc] at h
    split_ifs at h <;> simp_all
  · intro h
    rw [if_pos h]
    simp

/-- C6 witness: a snapshot with three recent bounces includes the
informational alert although both rate axes fire as well. -/
theorem C6_info_iff_witness :
    Alert.info16m m_burst3.recent_bounces_16m_count ∈ compute_alerts m_burst3 :=
  (C6_info_iff m_burst3).mpr (by decide)

/-- C9 counterexample: with a 7-day rate of 1/16 (warning) and an all-time
rate of 1/16 (critical), the alert list places the 7-day WARNING before
the all-time CRITICAL, so it is not ordered by severity. -/
theorem C9_counterexample : ¬ SeverityOrdered (compute_alerts m_cross) := by
  have h : compute_alerts m_cross = [Alert.warn7d (1/16), Alert.critAll (1/16)] := by
    norm_num [compute_alerts, m_cross, BOUNCE_RATE_7D_WARNING, BOUNCE_RATE_7D_CRITICAL,
      BOUNCE_RATE_ALL_TIME_WARNING, BOUNCE_RATE_ALL_TIME_CRITICAL]
  intro hord
  rw [SeverityOrdered, h] at hord
  have h2 := (List.pairwise_cons.mp hord).1 _ (List.mem_singleton.mpr rfl)
  simp [Alert.severity, sevRank] at h2

/-- C9 amended: the alert list is ordered by rate axis, 7-day first, then
all-time, then the recent-burst info line, one message per axis at most;
it is not globally ordered by severity. -/
theorem C9_axis_order (m : Metrics) :
    (compute_alerts m).Pairwise fun a b => a.axisRank < b.axisRank := by
  unfold compute_alerts
  split_ifs <;> simp [Alert.axisRank]

/-- C10.  The per-recipient send treats every completed POST as a
successful delivery regardless of the status code of the response, and a
raised transport exception is caught and logged as a failure. -/
theorem C10_response_ignored (r : String) (status : Nat) (msg : String)
    (h : ¬ pyStrip r = "") :
    send_alert_email (fun _ => .ok ⟨status⟩) [r] = [(pyStrip r, true)] ∧
    send_alert_email (fun _ => .error msg) [r] = [(pyStrip r, false)] := by
  unfold send_alert_email
  simp [h]

/-- C10 witness: a POST completing with status 500 is logged as a success,
a raised timeout is logged as a failure. -/
theorem C10_response_ignored_witness :
    send_alert_email (fun _ => .ok ⟨500⟩) ["x@example.com"] = [(pyStrip "x@example.com", true)] ∧
    send_alert_email (fun _ => .error "ReadTimeout") ["x@example.com"] = [(pyStrip "x@example.com", false)] :=
  C10_response_ignored "x@example.com" 500 "ReadTimeout" (by decide)

/-- C8.  Recipient isolation with overall success: with a nonempty alert
list and two configured recipients, a failed send to the first is caught
and logged while the second still receives the report, and the handler
still returns OK with status 200. -/
theorem C8_recipient_isolation (post : String → Except String Response)
    (r1 r2 : String) (alerts : List Alert) (e : String) (resp : Response)
    (ha : alerts ≠ []) (h1 : ¬ pyStrip r1 = "") (h2 : ¬ pyStrip r2 = "")
    (hp1 : post (pyStrip r1) = .error e) (hp2 : post (pyStrip r2) = .ok resp) :
    alert_dispatch post [r1, r2] alerts =
      (("OK", 200), [(pyStrip r1, false), (pyStrip r2, true)]) := by
  unfold alert_dispatch send_alert_email
  rw [if_neg (by simpa [List.isEmpty_iff] using ha)]
  simp [h1, h2, hp1, hp2]

/-- C8 witness: with one alert line and recipients "a" and "b", where the
POST for "a" raises and the POST for "b" completes, the dispatch returns
OK 200, logs the failure for "a" and delivers to "b". -/
theorem C8_recipient_isolation_witness :
    alert_dispatch post_demo ["a", "b"] [Alert.info16m 1] =
      (("OK", 200), [(pyStrip "a", false), (pyStrip "b", true)]) :=
  C8_recipient_isolation post_demo "a" "b" [Alert.info16m 1] "ConnectionError" ⟨200⟩
    (by simp) (by decide) (by decide) (by rfl) (by rfl)

/-- C7 amended: the snapshot carries a (sent, bounced) pair with a derived
rate for the 7-day and the all-time windows, the rate equal to
bounced / sent and defined as 0 when sent = 0; the recent-burst window
contributes only a bounced count. -/
theorem C7_rates (now : Int) (store : List Row) :
    ((calculate_bounce_metrics now store).sent_7d = 0 →
      (calculate_bounce_metrics now store).rate_7d = 0) ∧
    (0 < (calculate_bounce_metrics now store).sent_7d →
      (calculate_bounce_metrics now store).rate_7d =
        ((calculate_bounce_metrics now store).bounced_7d : ℚ) /
          ((calculate_bounce_metrics now store).sent_7d : ℚ)) ∧
    ((calculate_bounce_metrics now store).sent_all = 0 →
      (calculate_bounce_metrics now store).rate_all = 0) ∧
    (0 < (calculate_bounce_metrics now store).sent_all →
      (calculate_bounce_metrics now store).rate_all =
        ((calculate_bounce_metrics now store).bounced_all : ℚ) /
          ((calculate_bounce_metrics now store).sent_all : ℚ)) := by
  refine ⟨fun h => ?_, fun h => ?_, fun h => ?_, fun h => ?_⟩ <;>
    simp only [calculate_bounce_metrics] at h ⊢
  · rw [if_neg (by omega)]
  · rw [if_pos h]
  · rw [if_neg (by omega)]
  · rw [if_pos h]

/-- C7 witness: with an empty store both rates are 0 with sent count 0;
with one sent mail a minute before the reference time both rates equal
bounced divided by sent. -/
theorem C7_rates_witness :
    (calculate_bounce_metrics 0 []).rate_7d = 0 ∧
    (calculate_bounce_metrics 0 store_sent_1m).rate_7d =
      ((calculate_bounce_metrics 0 store_sent_1m).bounced_7d : ℚ) /
        ((calculate_bounce_metrics 0 store_sent_1m).sent_7d : ℚ) ∧
    (calculate_bounce_metrics 0 []).rate_all = 0 ∧
    (calculate_bounce_metrics 0 store_sent_1m).rate_all =
      ((calculate_bounce_metrics 0 store_sent_1m).bounced_all : ℚ) /
        ((calculate_bounce_metrics 0 store_sent_1m).sent_all : ℚ) :=
  ⟨(C7_rates 0 []).1 (by rfl),
   (C7_rates 0 store_sent_1m).2.1 (by decide),
   (C7_rates 0 []).2.2.1 (by rfl),
   (C7_rates 0 store_sent_1m).2.2.2 (by decide)⟩

/-- C7 counterexample: the snapshot contains no sent count (and hence no
pair and no rate) for the recent-burst window: two stores whose only
difference is whether the one sent mail lies inside the 16-minute window
produce identical snapshots, while the spec's recent-burst sent count
distinguishes them. -/
theorem C7_counterexample :
    calculate_bounce_metrics 0 store_sent_1h = calculate_bounce_metrics 0 store_sent_1m ∧
    spec_recent_burst_sent_count 0 store_sent_1h ≠ spec_recent_burst_sent_count 0 store_sent_1m :=
  ⟨rfl, by decide⟩

theorem updateRow_id (t s : Row) : (updateRow t s).id = t.id := rfl

theorem updateRow_self (s : Row) : updateRow s s = s := rfl

theorem rowAfter_id (batch : List Row) (t : Row) : (rowAfter batch t).id = t.id := by
  unfold rowAfter
  cases findMatch batch t.id <;> rfl

theorem filter_match_le_one (batch : List Row) (tid : Option String) (hb : BatchWf batch) :
    (batch.filter fun s => sqlEq tid s.id).length ≤ 1 := by
  cases tid with
  | none =>
    have h : (batch.filter fun s => sqlEq none s.id) = [] :=
      List.filter_eq_nil_iff.mpr fun a _ => by simp [sqlEq_none_left]
    simp [h]
  | some x =>
    induction batch with
    | nil => simp
    | cons a rest ih =>
      rw [BatchWf, List.pairwise_cons] at hb
      obtain ⟨h1, h2⟩ := hb
      rw [List.filter_cons]
      by_cases hpa : sqlEq (some x) a.id = true
      · have ha : a.id = some x := sqlEq_some_iff.mp hpa
        have hrest : (rest.filter fun s => sqlEq (some x) s.id) = [] := by
          apply List.filter_eq_nil_iff.mpr
          intro b hbm hc
          have hbid : b.id = some x := sqlEq_some_iff.mp hc
          have := h1 b hbm
          rw [ha, hbid] at this
          simp [sqlEq] at this
        simp [hpa, hrest]
      · simp only [hpa, if_false]
        exact ih h2

theorem merge_ok {batch : List Row} (hb : BatchWf batch) (store : List Row) :
    mergeEvents store batch = .ok (mergeResult store batch) := by
  have hno : store.any
      (fun t => decide (1 < (batch.filter fun s => sqlEq t.id s.id).length)) = false := by
    rw [List.any_eq_false]
    intro t _
    simp only [decide_eq_true_eq, not_lt]
    exact filter_match_le_one batch t.id hb
  simp [mergeEvents, hno]

theorem find_unique {batch : List Row} {s : Row} {y : String} (hb : BatchWf batch)
    (hs : s ∈ batch) (hy : s.id = some y) : findMatch batch (some y) = some s := by
  induction batch with
  | nil => cases hs
  | cons a rest ih =>
    rw [BatchWf, List.pairwise_cons] at hb
    obtain ⟨h1, h2⟩ := hb
    unfold findMatch
    rw [List.find?_cons]
    by_cases hpa : sqlEq (some y) a.id = true
    · have ha : a.id = some y := sqlEq_some_iff.mp hpa
      rcases List.mem_cons.mp hs with rfl | hmem
      · simp [hpa]
      · exfalso
        have hcontra := h1 s hmem
        rw [ha, hy] at hcontra
        simp [sqlEq] at hcontra
    · have hne : s ≠ a := by
        intro he
        apply hpa
        rw [← he, hy]
        exact sqlEq_refl_some
      have hmem : s ∈ rest := by
        rcases List.mem_cons.mp hs with he | hm
        · exact absurd he hne
        · exact hm
      simp only [hpa]
      exact ih h2 hmem

theorem storeInv_mergeResult {store batch : List Row} (hs : StoreInv store) (hb : BatchWf batch) :
    StoreInv (mergeResult store batch) := by
  unfold mergeResult StoreInv
  rw [List.pairwise_append]
  refine ⟨?_, ?_, ?_⟩
  · rw [List.pairwise_map]
    exact hs.imp fun {a b} h => by rw [rowAfter_id, rowAfter_id]; exact h
  · exact hb.filter _
  · intro a ha b hbm
    obtain ⟨t, ht, rfl⟩ := List.mem_map.mp ha
    obtain ⟨_, hfilt⟩ := List.mem_filter.mp hbm
    rw [Bool.not_eq_true'] at hfilt
    have hall := List.any_eq_false.mp hfilt t ht
    rw [rowAfter_id]
    exact Bool.eq_false_iff.mpr hall

theorem storeInv_upsert {store batch res : List Row} (hs : StoreInv store) (hb : BatchWf batch)
    (h : upsert_events_to_bq store batch = .ok res) : StoreInv res := by
  unfold upsert_events_to_bq at h
  by_cases he : batch.isEmpty
  · rw [if_pos he] at h
    injection h with h2
    rw [← h2]
    exact hs
  · rw [if_neg he, merge_ok hb] at h
    injection h with h2
    rw [← h2]
    exact storeInv_mergeResult hs hb

/-- C1 counterexample: one upsert of a batch that carries the same new id
"a" twice, applied to the empty store, succeeds and leaves two stored rows
with id "a"; the unrestricted claim is false. -/
theorem C1_counterexample :
    upsert_events_to_bq [] [ev_dup, ev_dup] = .ok [ev_dup, ev_dup] ∧
      ¬ StoreInv [ev_dup, ev_dup] :=
  ⟨rfl, by decide⟩

/-- C1 amended: after any sequence of successful upserts whose batches
never repeat a non-null id within themselves, starting from a store with
at most one row per id, the store still has at most one row per id. -/
theorem C1_unique_ids (batches : List (List Row)) (store res : List Row)
    (hs : StoreInv store) (hb : ∀ b ∈ batches, BatchWf b)
    (h : apply_upserts store batches = .ok res) : StoreInv res := by
  induction batches generalizing store with
  | nil =>
    unfold apply_upserts at h
    rw [List.foldlM_nil] at h
    injection h with h2
    rw [← h2]
    exact hs
  | cons b bs ih =>
    unfold apply_upserts at h
    rw [List.foldlM_cons] at h
    cases hu : upsert_events_to_bq store b with
    | error e =>
      rw [hu] at h
      simp [Bind.bind, Except.bind] at h
    | ok st1 =>
      rw [hu] at h
      simp only [Bind.bind, Except.bind] at h
      exact ih st1 (storeInv_upsert hs (hb b (List.mem_cons_self b bs)) hu)
        (fun x hx => hb x (List.mem_cons_of_mem b hx)) h

/-- C1 witness: two singleton batches with distinct ids applied to the
empty store leave a store with one row per id. -/
theorem C1_unique_ids_witness : StoreInv [ev_a, ev_b] :=
  C1_unique_ids [[ev_a], [ev_b]] [] [ev_a, ev_b] (by decide) (by decide) (by rfl)

theorem rowAfter_idem (batch : List Row) (t : Row) :
    rowAfter batch (rowAfter batch t) = rowAfter batch t := by
  cases h : findMatch batch t.id with
  | none =>
    have h1 : rowAfter batch t = t := by unfold rowAfter; rw [h]
    rw [h1]
    exact h1
  | some s =>
    have h1 : rowAfter batch t = updateRow t s := by unfold rowAfter; rw [h]
    rw [h1]
    have h2 : findMatch batch (updateRow t s).id = some s := h
    unfold rowAfter
    rw [h2]
    rfl

/-- After a successful merge, re-merging the same well-formed batch leaves
the table unchanged. -/
theorem mergeResult_fixed {store batch : List Row} (hb : BatchWf batch)
    (hid : ∀ s ∈ batch, s.id ≠ none) :
    mergeResult (mergeResult store batch) batch = mergeResult store batch := by
  have hmap : (mergeResult store batch).map (rowAfter batch) = mergeResult store batch := by
    have hpt : ∀ r ∈ mergeResult store batch, rowAfter batch r = r := by
      intro r hr
      rcases List.mem_append.mp hr with hl | hrr
      · obtain ⟨t, _, rfl⟩ := List.mem_map.mp hl
        exact rowAfter_idem batch t
      · obtain ⟨hbm, _⟩ := List.mem_filter.mp hrr
        cases hy : r.id with
        | none => exact absurd hy (hid r hbm)
        | some y =>
          have hfind : findMatch batch r.id = some r := by
            rw [hy]
            exact find_unique hb hbm hy
          unfold rowAfter
          rw [hfind]
          exact updateRow_self r
    conv_rhs => rw [← List.map_id (mergeResult store batch)]
    exact List.map_congr_left fun a ha => hpt a ha
  have hfilt :
      (batch.filter fun s => !((mergeResult store batch).any fun t => sqlEq t.id s.id)) = [] := by
    apply List.filter_eq_nil_iff.mpr
    intro s hsb
    suffices hany : ((mergeResult store batch).any fun t => sqlEq t.id s.id) = true by
      simp [hany]
    cases hy : s.id with
    | none => exact absurd hy (hid s hsb)
    | some y =>
      rw [List.any_eq_true]
      by_cases hst : store.any (fun t => sqlEq t.id s.id) = true
      · obtain ⟨t, ht, htid⟩ := List.any_eq_true.mp hst
        exact ⟨rowAfter batch t,
          List.mem_append.mpr (.inl (List.mem_map.mpr ⟨t, ht, rfl⟩)),
          by rw [rowAfter_id, ← hy]; exact htid⟩
      · have hpass : s ∈ batch.filter fun s2 => !(store.any fun t => sqlEq t.id s2.id) := by
          rw [List.mem_filter]
          refine ⟨hsb, ?_⟩
          show (!(store.any fun t => sqlEq t.id s.id)) = true
          rw [Bool.not_eq_true']
          exact Bool.eq_false_iff.mpr hst
        exact ⟨s, List.mem_append.mpr (.inr hpass), by rw [hy]; exact sqlEq_refl_some⟩
  calc mergeResult (mergeResult store batch) batch
      = (mergeResult store batch).map (rowAfter batch)
          ++ (batch.filter fun s => !((mergeResult store batch).any fun t => sqlEq t.id s.id)) := rfl
    _ = mergeResult store batch := by rw [hmap, hfilt, List.append_nil]

/-- C2 counterexample: an event whose record carried no id is re-inserted
by every merge (a NULL id never matches), so upserting the same singleton
batch twice yields two stored rows where one upsert yields one. -/
theorem C2_counterexample :
    upsert_events_to_bq [] [ev_noid] = .ok [ev_noid] ∧
    upsert_events_to_bq [ev_noid] [ev_noid] = .ok [ev_noid, ev_noid] ∧
    [ev_noid, ev_noid] ≠ [ev_noid] :=
  ⟨rfl, rfl, by decide⟩

/-- C2 amended: for batches whose events all carry an id and never repeat
one within the batch, upsert is idempotent: re-applying the batch to the
store a successful upsert produced succeeds and leaves the store
unchanged. -/
theorem C2_idempotent (store batch res : List Row)
    (_hs : StoreInv store) (hb : BatchWf batch) (hid : ∀ s ∈ batch, s.id ≠ none)
    (h : upsert_events_to_bq store batch = .ok res) :
    upsert_events_to_bq res batch = .ok res := by
  unfold upsert_events_to_bq at h ⊢
  by_cases he : batch.isEmpty
  · rw [if_pos he]
  · rw [if_neg he, merge_ok hb] at h
    injection h with h2
    rw [if_neg he, merge_ok hb, ← h2, mergeResult_fixed hb hid]

/-- C2 witness: upserting the batch with id "a" into the store it created
returns that store unchanged. -/
theorem C2_idempotent_witness : upsert_events_to_bq [ev_a] [ev_a] = .ok [ev_a] :=
  C2_idempotent [] [ev_a] [ev_a] (by decide) (by decide) (by decide) (by rfl)

theorem pyGet_obj (g : List (String × Value)) (k : String) (d : Value) :
    pyGet (.obj g) k d = .ok (pyGetD g k d) := by
  unfold pyGet pyGetD
  cases h : lookupKey g k <;> simp [h]

/-- C3.  When an upserted event's id already exists in the store (one
well-formed batch against a store with unique ids), the upsert succeeds
and the store contains the row whose mutable fields name, contact_id,
email_id, data_bounced_at, data_bounce_type and raw_json come from the
event while id, project_id, created_at, timestamp, data_from,
data_subject, data_template_id, data_message_id and contact_email keep
the prior row's values; the store keeps at most one row per id. -/
theorem C3_matched_update (store batch : List Row) (t s : Row)
    (hsi : StoreInv store) (hb : BatchWf batch) (ht : t ∈ store) (hsb : s ∈ batch)
    (hid : sqlEq t.id s.id = true) :
    ∃ res, upsert_events_to_bq store batch = .ok res ∧ StoreInv res ∧
      ∃ r, r ∈ res ∧
        r.name = s.name ∧ r.contact_id = s.contact_id ∧ r.email_id = s.email_id ∧
        r.data_bounced_at = s.data_bounced_at ∧ r.data_bounce_type = s.data_bounce_type ∧
        r.raw_json = s.raw_json ∧
        r.id = t.id ∧ r.project_id = t.project_id ∧ r.created_at = t.created_at ∧
        r.timestamp = t.timestamp ∧ r.data_from = t.data_from ∧
        r.data_subject = t.data_subject ∧ r.data_template_id = t.data_template_id ∧
        r.data_message_id = t.data_message_id ∧ r.contact_email = t.contact_email := by
  obtain ⟨y, hty, hsy⟩ := sqlEq_true hid
  have hne : ¬ batch.isEmpty = true := by
    intro hE
    rw [List.isEmpty_iff] at hE
    rw [hE] at hsb
    cases hsb
  refine ⟨mergeResult store batch, ?_, storeInv_mergeResult hsi hb, updateRow t s, ?_,
    rfl, rfl, rfl, rfl, rfl, rfl, rfl, rfl, rfl, rfl, rfl, rfl, rfl, rfl, rfl⟩
  · unfold upsert_events_to_bq
    rw [if_neg hne]
    exact merge_ok hb store
  · apply List.mem_append.mpr
    left
    apply List.mem_map.mpr
    refine ⟨t, ht, ?_⟩
    have hfind : findMatch batch t.id = some s := by
      rw [hty]
      exact find_unique hb hsb hsy
    unfold rowAfter
    rw [hfind]

/-- C3 witness: re-ingesting id "a" as a bounce updates the mutable fields
of the stored row and keeps its identity and context fields. -/
theorem C3_matched_update_witness :
    ∃ res, upsert_events_to_bq [stored_a] [incoming_a] = .ok res ∧ StoreInv res ∧
      ∃ r, r ∈ res ∧
        r.name = incoming_a.name ∧ r.contact_id = incoming_a.contact_id ∧
        r.email_id = incoming_a.email_id ∧
        r.data_bounced_at = incoming_a.data_bounced_at ∧
        r.data_bounce_type = incoming_a.data_bounce_type ∧
        r.raw_json = incoming_a.raw_json ∧
        r.id = stored_a.id ∧ r.project_id = stored_a.project_id ∧
        r.created_at = stored_a.created_at ∧
        r.timestamp = stored_a.timestamp ∧ r.data_from = stored_a.data_from ∧
        r.data_subject = stored_a.data_subject ∧
        r.data_template_id = stored_a.data_template_id ∧
        r.data_message_id = stored_a.data_message_id ∧
        r.contact_email = stored_a.contact_email :=
  C3_matched_update [stored_a] [incoming_a] stored_a incoming_a
    (by decide) (by decide) (by decide) (by decide) (by decide)

/-- C5 counterexample: a record whose data key is present but holds null
makes normalisation raise (Python None has no get attribute) instead of
degrading to null sub-fields. -/
theorem C5_counterexample :
    normalize_event_params rec_null_data = .error "AttributeError" := rfl

/-- C5 amended: for every raw record that is an object whose data and
contact keys, where present, hold objects, normalisation never errors:
it yields the row of dict lookups with null defaults, the serialised
original payload is preserved in raw_json, and an absent data or contact
key degrades to null sub-fields.  A data or contact key holding a
non-object value (such as null) instead raises. -/
theorem C5_normalize (fs g2 g3 : List (String × Value))
    (hd : pyGetD fs "data" (.obj []) = .obj g2)
    (hc : pyGetD fs "contact" (.obj []) = .obj g3) :
    normalize_event_params (.obj fs) = .ok (extract_row fs g2 g3) ∧
    (extract_row fs g2 g3).raw_json = .str (dumps (.obj fs)) ∧
    (lookupKey fs "data" = none →
      (extract_row fs g2 g3).data_from = .null ∧
      (extract_row fs g2 g3).data_subject = .null ∧
      (extract_row fs g2 g3).data_template_id = .null ∧
      (extract_row fs g2 g3).data_message_id = .null ∧
      (extract_row fs g2 g3).data_bounced_at = .null ∧
      (extract_row fs g2 g3).data_bounce_type = .null) ∧
    (lookupKey fs "contact" = none → (extract_row fs g2 g3).contact_email = .null) := by
  refine ⟨?_, rfl, fun hnone => ?_, fun hnone => ?_⟩
  · unfold normalize_event_params extract_row
    simp only [pyGet_obj, hd, hc, Bind.bind, Except.bind, pure, Except.pure]
  · have h2 : pyGetD fs "data" (.obj []) = .obj [] := by unfold pyGetD; rw [hnone]
    rw [h2] at hd
    injection hd with h3
    rw [← h3]
    exact ⟨rfl, rfl, rfl, rfl, rfl, rfl⟩
  · have h2 : pyGetD fs "contact" (.obj []) = .obj [] := by unfold pyGetD; rw [hnone]
    rw [h2] at hc
    injection hc with h3
    rw [← h3]
    rfl

/-- C5 witness: a record with no data key and a contact object normalises
without error, preserves its serialised payload in raw_json and has null
data sub-fields. -/
theorem C5_normalize_witness :
    normalize_event_params (.obj rec_no_data_fields) =
      .ok (extract_row rec_no_data_fields [] [("email", .str "kunde@example.com")]) ∧
    (extract_row rec_no_data_fields [] [("email", .str "kunde@example.com")]).raw_json =
      .str (dumps (.obj rec_no_data_fields)) ∧
    (lookupKey rec_no_data_fields "data" = none →
      (extract_row rec_no_data_fields [] [("email", .str "kunde@example.com")]).data_from = .null ∧
      (extract_row rec_no_data_fields [] [("email", .str "kunde@example.com")]).data_subject = .null ∧
      (extract_row rec_no_data_fields [] [("email", .str "kunde@example.com")]).data_template_id = .null ∧
      (extract_row rec_no_data_fields [] [("email", .str "kunde@example.com")]).data_message_id = .null ∧
      (extract_row rec_no_data_fields [] [("email", .str "kunde@example.com")]).data_bounced_at = .null ∧
      (extract_row rec_no_data_fields [] [("email", .str "kunde@example.com")]).data_bounce_type = .null) ∧
    (lookupKey rec_no_data_fields "contact" = none →
      (extract_row rec_no_data_fields [] [("email", .str "kunde@example.com")]).contact_email = .null) :=
  C5_normalize rec_no_data_fields [] [("email", .str "kunde@example.com")] rfl rfl

end PlunkLogger
